import Mathlib

/-!
Verification development for the webar-atom repository.

Shallow embedding of the scene sequencer, particle model highlight logic,
quiz mini-game and pointer-gesture handling from:
  public/js/app.js   (second, current draft: class WebARAtomApp)
  public/js/atom.js  (class AtomModel)
  public/js/interactions.js (class InteractionManager)

Conventions of the embedding:
- JavaScript numbers are modelled as rationals; decimal literals such as
  0.1 are written 1/10.  Colors are the hex integers of the source.
- DOM elements are modelled by the fields of the state records that the
  source reads and writes (class lists become Bool flags, textContent
  becomes enumerated content tags).
- Geometric measurements produced by Math.hypot / Math.atan2 on screen
  coordinates (inter-pointer distance and angle) are supplied to the
  event steps as inputs, since the surrounding logic only consumes the
  resulting scalars.  The tap-displacement test, which the source writes
  as Math.hypot dx dy < 8, is embedded in the exactly equivalent squared
  form dx^2 + dy^2 < 64.
-/

/- Core marks the rational-number operations irreducible, which stops
the decide tactic's whnf evaluation of concrete states; the kernel
itself reduces them fine.  Restore default reducibility for them. -/
set_option allowUnsafeReducibility true
attribute [local semireducible] Rat.mul Rat.add Rat.sub Rat.inv

namespace WebarAtom

/-- Particle kinds of the model: userData.kind of nucleons and the kind
strings passed to highlightKind and the quiz (atom.js, app.js). -/
inductive PKind where
  | proton
  | neutron
  | electron
deriving DecidableEq, Repr

/-- Material state: the fields of a THREE material that atom.js reads or
writes, together with the snapshot fields the source stores on
mat.userData (undefined is modelled as none).  MeshBasicMaterial and
LineBasicMaterial have no emissive color, modelled by emissive = none. -/
structure MatState where
  opacity : ℚ
  transparent : Bool
  visible : Bool
  color : ℕ
  emissive : Option ℕ
  alphaTest : ℚ
  depthWrite : Bool
  depthTest : Bool
  origTransparent : Option Bool
  origOpacity : Option ℚ
  origColor : Option ℕ
  origEmissive : Option ℕ
deriving DecidableEq, Repr

/-- MeshStandardMaterial as created in atom.js (transparent: true,
opacity 1, emissive black, THREE defaults for the rest). -/
def mkStd (c : ℕ) : MatState :=
  { opacity := 1, transparent := true, visible := true, color := c,
    emissive := some 0, alphaTest := 0, depthWrite := true, depthTest := true,
    origTransparent := none, origOpacity := none, origColor := none,
    origEmissive := none }

/-- MeshBasicMaterial / LineBasicMaterial as created in atom.js
(transparent: true, given opacity, no emissive). -/
def mkBasic (c : ℕ) (op : ℚ) : MatState :=
  { opacity := op, transparent := true, visible := true, color := c,
    emissive := none, alphaTest := 0, depthWrite := true, depthTest := true,
    origTransparent := none, origOpacity := none, origColor := none,
    origEmissive := none }

def defaultMat : MatState := mkBasic 0xffffff 1

/-- Category of a scene-graph node of the atom, recording which of the
source's bookkeeping lists (this.nucleus, this.electrons, the trails,
the glow meshes, the orbit meshes) the node belongs to. -/
inductive ObjCat where
  | root
  | nucleusGroup
  | nucleon (k : PKind)
  | glow
  | orbit
  | electron
  | trail
deriving DecidableEq, Repr

/-- A node of the atom's scene graph as traversed by group.traverse:
its identity, its material (none for Groups), its visible flag and its
uniform local scale (scale.setScalar values). -/
structure SceneObj where
  oid : ℕ
  cat : ObjCat
  mat : Option ℕ
  visible : Bool
  scale : ℚ
  originalScale : Option ℚ
deriving DecidableEq, Repr

def mkObj (oid : ℕ) (cat : ObjCat) (mat : Option ℕ) : SceneObj :=
  { oid := oid, cat := cat, mat := mat, visible := true, scale := 1,
    originalScale := none }

/-- References compared by the JavaScript identity test
obj === this.nucleus inside highlightKind and restoreOpacity
(atom.js lines 319 and 741): the left side is a traversed Object3D, the
right side is the JS Array this.nucleus holding the nucleon meshes. -/
inductive NodeRef where
  | objNode (oid : ℕ)
  | nucleusArray
deriving DecidableEq, Repr

/-- Embeds the identity comparison obj === this.nucleus: a scene-graph
node is compared against the nucleon Array reference. -/
def nodeIsNucleusArray (o : SceneObj) : Bool :=
  NodeRef.objNode o.oid == NodeRef.nucleusArray

/-- State of one AtomModel instance: the traversed scene graph, the
material store (indices referenced by SceneObj.mat), the fade flag and
keep set, the aggregate transform (group scale as set by
scale.setScalar, baseScale as kept by setScale/getScale, yaw and
position), and the scene-emphasis animation flags. -/
structure AtomState where
  objs : List SceneObj
  mats : List MatState
  isFaded : Bool
  selectionKeep : Option (List ℕ)
  baseScale : ℚ
  groupScale : ℚ
  rotY : ℚ
  posX : ℚ
  posY : ℚ
  posZ : ℚ
  protonsAnimating : Bool
  neutronsAnimating : Bool
  protonAnimationTime : ℚ
  neutronAnimationTime : ℚ
deriving DecidableEq, Repr

/-- Material store of a freshly created AtomModel, in creation order:
0 proton material, 1 neutron material, 2 electron material,
3 inner glow, 4 outer glow, 5-8 the four orbit ring materials,
9-14 the six electron trail line materials. -/
def initMats : List MatState :=
  [ mkStd 0xff3333,
    mkStd 0x6699ff,
    mkStd 0x00ff66,
    mkBasic 0xffaa00 (3/10),
    mkBasic 0xffdd44 (15/100),
    mkBasic 0x44ff88 (4/10),
    mkBasic 0x4488ff (35/100),
    mkBasic 0xff4488 (35/100),
    mkBasic 0xffaa44 (35/100),
    mkBasic 0x00ff66 (3/10),
    mkBasic 0x00ff66 (3/10),
    mkBasic 0x00ff66 (3/10),
    mkBasic 0x00ff66 (3/10),
    mkBasic 0x00ff66 (3/10),
    mkBasic 0x00ff66 (3/10) ]

/-- Scene graph of a freshly created AtomModel in group.traverse order:
the group, the nucleus group, the 6 protons and 7 neutrons
(i < 6 is a proton in createNucleus), the two glow shells, the four
orbit rings, then each electron followed by its trail line. -/
def initObjs : List SceneObj :=
  [ mkObj 0 .root none,
    mkObj 1 .nucleusGroup none,
    mkObj 2 (.nucleon .proton) (some 0),
    mkObj 3 (.nucleon .proton) (some 0),
    mkObj 4 (.nucleon .proton) (some 0),
    mkObj 5 (.nucleon .proton) (some 0),
    mkObj 6 (.nucleon .proton) (some 0),
    mkObj 7 (.nucleon .proton) (some 0),
    mkObj 8 (.nucleon .neutron) (some 1),
    mkObj 9 (.nucleon .neutron) (some 1),
    mkObj 10 (.nucleon .neutron) (some 1),
    mkObj 11 (.nucleon .neutron) (some 1),
    mkObj 12 (.nucleon .neutron) (some 1),
    mkObj 13 (.nucleon .neutron) (some 1),
    mkObj 14 (.nucleon .neutron) (some 1),
    mkObj 15 .glow (some 3),
    mkObj 16 .glow (some 4),
    mkObj 17 .orbit (some 5),
    mkObj 18 .orbit (some 6),
    mkObj 19 .orbit (some 7),
    mkObj 20 .orbit (some 8),
    mkObj 21 .electron (some 2),
    mkObj 22 .trail (some 9),
    mkObj 23 .electron (some 2),
    mkObj 24 .trail (some 10),
    mkObj 25 .electron (some 2),
    mkObj 26 .trail (some 11),
    mkObj 27 .electron (some 2),
    mkObj 28 .trail (some 12),
    mkObj 29 .electron (some 2),
    mkObj 30 .trail (some 13),
    mkObj 31 .electron (some 2),
    mkObj 32 .trail (some 14) ]

/-- AtomModel constructor state (new AtomModel in atom.js). -/
def initAtomModel : AtomState :=
  { objs := initObjs, mats := initMats, isFaded := false,
    selectionKeep := none, baseScale := 1, groupScale := 1, rotY := 0,
    posX := 0, posY := 0, posZ := 0,
    protonsAnimating := false, neutronsAnimating := false,
    protonAnimationTime := 0, neutronAnimationTime := 0 }

/-- Keep set of highlightKind (atom.js lines 291-308): for proton or
neutron, the nucleons of this.nucleus whose userData.kind matches; for
electron, the electrons of this.electrons together with their trail
lines. -/
def keepOids (kind : PKind) (objs : List SceneObj) : List ℕ :=
  match kind with
  | .proton => (objs.filter (fun o => o.cat = .nucleon .proton)).map SceneObj.oid
  | .neutron => (objs.filter (fun o => o.cat = .nucleon .neutron)).map SceneObj.oid
  | .electron =>
      (objs.filter (fun o => o.cat = .electron ∨ o.cat = .trail)).map SceneObj.oid

/-- Per-material action of highlightKind (atom.js lines 329-375):
snapshot the original transparency, opacity, color and emissive on
first touch, then either force the keep set fully opaque with the
kind's bright color, or dim to opacity 0.1. -/
def hlMaterial (kind : PKind) (shouldKeep : Bool) (m : MatState) : MatState :=
  let m := { m with
    origTransparent := some (m.origTransparent.getD m.transparent),
    origOpacity := some (m.origOpacity.getD m.opacity),
    origColor := some (m.origColor.getD m.color),
    origEmissive := some (m.origEmissive.getD (m.emissive.getD 0)) }
  let m := { m with transparent := true }
  if shouldKeep then
    let m := { m with opacity := 1, transparent := false, alphaTest := 0,
                      depthWrite := true, depthTest := true }
    match kind with
    | .proton =>
        { m with color := 0xff0000,
                 emissive := m.emissive.map (fun _ => 0) }
    | .neutron =>
        { m with color := 0x0066ff,
                 emissive := m.emissive.map (fun _ => 0) }
    | .electron => m
  else
    { m with opacity := 1/10, transparent := true, alphaTest := 1/10,
             emissive := m.emissive.map (fun _ => 0) }

/-- The dead special case of highlightKind and restoreOpacity
(atom.js lines 319-327 and 741-749): make the material fully invisible
and hide the object.  It is guarded by nodeIsNucleusArray. -/
def hideNucleusContainer (mi : ℕ) (o : SceneObj) (mats : List MatState) :
    SceneObj × List MatState :=
  let m := mats.getD mi defaultMat
  (({ o with visible := false }),
   mats.set mi { m with transparent := true, opacity := 0, visible := false })

/-- Traversal loop of highlightKind over the scene graph (atom.js
lines 312-376): objects without a material are skipped; the special
nucleus-container comparison is applied for proton/neutron; every other
material is processed by hlMaterial with its keep-set membership. -/
def hlTraverse (kind : PKind) (keep : List ℕ) :
    List SceneObj → List MatState → List SceneObj × List MatState
  | [], mats => ([], mats)
  | o :: rest, mats =>
    match o.mat with
    | none =>
        let (os, ms) := hlTraverse kind keep rest mats
        (o :: os, ms)
    | some mi =>
        if (kind = .proton ∨ kind = .neutron) ∧ nodeIsNucleusArray o then
          let (o', mats') := hideNucleusContainer mi o mats
          let (os, ms) := hlTraverse kind keep rest mats'
          (o' :: os, ms)
        else
          let mats' := mats.set mi
            (hlMaterial kind (keep.contains o.oid) (mats.getD mi defaultMat))
          let (os, ms) := hlTraverse kind keep rest mats'
          (o :: os, ms)

/-- AtomModel.highlightKind (atom.js lines 289-379).  The intensity
parameter of the source is never read in the body and is omitted. -/
def highlightKind (kind : PKind) (a : AtomState) : AtomState :=
  let keep := keepOids kind a.objs
  let (objs', mats') := hlTraverse kind keep a.objs a.mats
  { a with objs := objs', mats := mats',
           selectionKeep := some keep, isFaded := true }

/-- Per-material action of restoreOpacity (atom.js lines 752-771):
restore opacity (1.0 when no snapshot), the transparent flag, the color
and, when the material has an emissive color, the emissive snapshot. -/
def restoreMat (m : MatState) : MatState :=
  let m := { m with opacity := m.origOpacity.getD 1 }
  let m := { m with transparent := m.origTransparent.getD m.transparent }
  let m := { m with color := m.origColor.getD m.color }
  match m.origEmissive with
  | some e => if m.emissive.isSome then { m with emissive := some e } else m
  | none => m

/-- Traversal loop of restoreOpacity (atom.js lines 735-772), including
the dead nucleus-container comparison. -/
def restoreTraverse :
    List SceneObj → List MatState → List SceneObj × List MatState
  | [], mats => ([], mats)
  | o :: rest, mats =>
    match o.mat with
    | none =>
        let (os, ms) := restoreTraverse rest mats
        (o :: os, ms)
    | some mi =>
        if nodeIsNucleusArray o then
          let (o', mats') := hideNucleusContainer mi o mats
          let (os, ms) := restoreTraverse rest mats'
          (o' :: os, ms)
        else
          let mats' := mats.set mi (restoreMat (mats.getD mi defaultMat))
          let (os, ms) := restoreTraverse rest mats'
          (o :: os, ms)

/-- AtomModel.restoreOpacity (atom.js lines 733-775): no-op unless the
model is faded; otherwise restore every traversed material and clear
the keep set and the fade flag. -/
def restoreOpacity (a : AtomState) : AtomState :=
  if a.isFaded = false then a
  else
    let (objs', mats') := restoreTraverse a.objs a.mats
    { a with objs := objs', mats := mats',
             selectionKeep := none, isFaded := false }

/-- AtomModel.clearHighlights (atom.js lines 381-383). -/
def clearHighlights (a : AtomState) : AtomState :=
  restoreOpacity a

/-- AtomModel.setScale (atom.js lines 544-547): writes both the group
scale and baseScale. -/
def setScale (s : ℚ) (a : AtomState) : AtomState :=
  { a with groupScale := s, baseScale := s }

/-- AtomModel.getScale (atom.js lines 549-551): returns baseScale. -/
def getScale (a : AtomState) : ℚ :=
  a.baseScale

/-- AtomModel.setRotationY (atom.js lines 561-563). -/
def setRotationY (angle : ℚ) (a : AtomState) : AtomState :=
  { a with rotY := angle }

/-- AtomModel.getRotationY (atom.js lines 565-567). -/
def getRotationY (a : AtomState) : ℚ :=
  a.rotY

/-- AtomModel.setPosition (atom.js lines 553-555). -/
def setPosition (x y z : ℚ) (a : AtomState) : AtomState :=
  { a with posX := x, posY := y, posZ := z }

/-- Per-nucleon action of animateProtons / animateNeutrons (atom.js
lines 391-405 and 425-439): store the original scale once, enlarge to
1.5 and set the bright color on the particle's material. -/
def emphasizeNucleon (k : PKind) (c : ℕ) (o : SceneObj) (mats : List MatState) :
    SceneObj × List MatState :=
  if o.cat = .nucleon k then
    let o' := { o with originalScale := some (o.originalScale.getD o.scale),
                       scale := 3/2 }
    let mats' := match o.mat with
      | some mi =>
          let m := mats.getD mi defaultMat
          mats.set mi { m with color := c }
      | none => mats
    (o', mats')
  else (o, mats)

def emphasizeTraverse (k : PKind) (c : ℕ) :
    List SceneObj → List MatState → List SceneObj × List MatState
  | [], mats => ([], mats)
  | o :: rest, mats =>
      let (o', mats') := emphasizeNucleon k c o mats
      let (os, ms) := emphasizeTraverse k c rest mats'
      (o' :: os, ms)

/-- AtomModel.animateProtons (atom.js lines 386-406). -/
def animateProtons (enable : Bool) (a : AtomState) : AtomState :=
  let (objs', mats') := emphasizeTraverse .proton 0xff0000 a.objs a.mats
  { a with protonsAnimating := enable, protonAnimationTime := 0,
           objs := objs', mats := mats' }

/-- AtomModel.animateNeutrons (atom.js lines 420-440). -/
def animateNeutrons (enable : Bool) (a : AtomState) : AtomState :=
  let (objs', mats') := emphasizeTraverse .neutron 0x6699ff a.objs a.mats
  { a with neutronsAnimating := enable, neutronAnimationTime := 0,
           objs := objs', mats := mats' }

/-- Per-nucleon action of stopProtonAnimation / stopNeutronAnimation
(atom.js lines 408-417 and 442-451): restore the stored scale. -/
def restoreNucleonScale (k : PKind) (o : SceneObj) : SceneObj :=
  if o.cat = .nucleon k then
    match o.originalScale with
    | some v => { o with scale := v }
    | none => o
  else o

/-- AtomModel.stopProtonAnimation (atom.js lines 408-417). -/
def stopProtonAnimation (a : AtomState) : AtomState :=
  { a with protonsAnimating := false,
           objs := a.objs.map (restoreNucleonScale .proton) }

/-- AtomModel.stopNeutronAnimation (atom.js lines 442-451). -/
def stopNeutronAnimation (a : AtomState) : AtomState :=
  { a with neutronsAnimating := false,
           objs := a.objs.map (restoreNucleonScale .neutron) }

/-- Material at index i of the model, defaultMat when out of range. -/
def matAt (a : AtomState) (i : ℕ) : MatState :=
  a.mats.getD i defaultMat

/-- Scene object at traversal position i. -/
def objAt (a : AtomState) (i : ℕ) : SceneObj :=
  a.objs.getD i (mkObj 0 .root none)

/-- Contents written into the eduPanel by app.js, as tags for the
distinct innerHTML strings used by placeAtom and gotoScene. -/
inductive PanelContent where
  | introPlain
  | introTap
  | protonInfo
  | neutronInfo
  | electronInfo
  | summaryInfo
deriving DecidableEq, Repr

/-- One quiz drop slot: its classList correct/incorrect flags and the
slot-content text (the matched kind's name, none when empty). -/
structure SlotState where
  correct : Bool
  incorrect : Bool
  content : Option PKind
deriving DecidableEq, Repr

/-- One quiz answer card: whether it is still displayed in the pool
(display none after a successful match) and its selected class. -/
structure CardState where
  displayed : Bool
  selected : Bool
deriving DecidableEq, Repr

/-- Texts written to the quizStatus element, as tags. -/
inductive QuizMsg where
  | pickedPrompt (k : PKind)
  | chooseFirst
  | success (k : PKind)
  | retry (k : PKind)
  | congrats
deriving DecidableEq, Repr

/-- Modelled from the spec: the static quiz DOM (index.html is not in
the sources).  Per the spec's quiz description there are three answer
tokens (proton, neutron, electron) and three target slots whose
data-target values are those same three kinds; app.js reads them via
data-answer and data-target. -/
structure QuizState where
  slotP : SlotState
  slotN : SlotState
  slotE : SlotState
  cardP : CardState
  cardN : CardState
  cardE : CardState
  selectedAnswer : Option PKind
  selectedCard : Option PKind
  status : Option QuizMsg
deriving DecidableEq, Repr

def emptySlot : SlotState := { correct := false, incorrect := false, content := none }
def freshCard : CardState := { displayed := true, selected := false }

def initQuiz : QuizState :=
  { slotP := emptySlot, slotN := emptySlot, slotE := emptySlot,
    cardP := freshCard, cardN := freshCard, cardE := freshCard,
    selectedAnswer := none, selectedCard := none, status := none }

def slotOf (q : QuizState) : PKind → SlotState
  | .proton => q.slotP
  | .neutron => q.slotN
  | .electron => q.slotE

def setSlot (q : QuizState) (t : PKind) (s : SlotState) : QuizState :=
  match t with
  | .proton => { q with slotP := s }
  | .neutron => { q with slotN := s }
  | .electron => { q with slotE := s }

def cardOf (q : QuizState) : PKind → CardState
  | .proton => q.cardP
  | .neutron => q.cardN
  | .electron => q.cardE

def setCard (q : QuizState) (k : PKind) (c : CardState) : QuizState :=
  match k with
  | .proton => { q with cardP := c }
  | .neutron => { q with cardN := c }
  | .electron => { q with cardE := c }

/-- Application state: the fields of WebARAtomApp (second draft of
app.js) that the embedded methods read or write, with the DOM panel,
footer, scene indicator and quiz overlay modelled as state fields.  The
scene indicator element is assumed present. -/
structure AppState where
  atom : Option AtomState
  sceneIndex : ℤ
  sceneIndicator : ℤ
  atomPlaced : Bool
  reticleVisible : Bool
  panelExists : Bool
  panelHidden : Bool
  panelContent : PanelContent
  challengeHidden : Bool
  footerHidden : Bool
  atomClickAttached : Bool
  hitTestSourceRequested : Bool
  hitTestSourceActive : Bool
  quiz : QuizState
deriving DecidableEq, Repr

/-- WebARAtomApp constructor plus setupEducationUI: no atom, scene 0,
nothing placed, panel hidden with the intro text, quiz overlay and
footer hidden. -/
def initApp : AppState :=
  { atom := none, sceneIndex := 0, sceneIndicator := 1, atomPlaced := false,
    reticleVisible := false, panelExists := true, panelHidden := true,
    panelContent := .introPlain, challengeHidden := true,
    footerHidden := true, atomClickAttached := false,
    hitTestSourceRequested := false, hitTestSourceActive := false,
    quiz := initQuiz }

/-- Applies an AtomModel method to the optional atom, embedding the
guards of the form this.atom && this.atom.method in gotoScene. -/
def onAtom (f : AtomState → AtomState) (app : AppState) : AppState :=
  match app.atom with
  | some a => { app with atom := some (f a) }
  | none => app

/-- WebARAtomApp.checkQuizCompletion (app.js lines 1323-1334): when the
number of slots with the correct class equals the total slot count,
write the congratulations status. -/
def checkQuizCompletion (app : AppState) : AppState :=
  let q := app.quiz
  if q.slotP.correct ∧ q.slotN.correct ∧ q.slotE.correct then
    { app with quiz := { q with status := some .congrats } }
  else app

/-- WebARAtomApp.handleQuizClick (app.js lines 1224-1259): guard on the
quiz scene, clear the selection, then either mark the slot correct and
remove the card (the 0.5s card-fly animation callback is modelled as
completing within the step), or flash the slot incorrect and schedule
the 2s reset modelled by slotResetTimeout. -/
def handleQuizClick (answerType targetType : PKind) (app : AppState) : AppState :=
  if app.sceneIndex ≠ 4 then app
  else
    let isCorrect := answerType = targetType
    let q := app.quiz
    let q := setCard q answerType { cardOf q answerType with selected := false }
    let q := { q with selectedAnswer := none, selectedCard := none }
    if isCorrect then
      let slot := slotOf q targetType
      let q := setSlot q targetType
        { slot with correct := true, incorrect := false, content := some answerType }
      let q := setCard q answerType { cardOf q answerType with displayed := false }
      let q := { q with status := some (.success answerType) }
      checkQuizCompletion { app with quiz := q }
    else
      let slot := slotOf q targetType
      let q := setSlot q targetType { slot with incorrect := true, correct := false }
      let q := { q with status := some (.retry answerType) }
      { app with quiz := q }

/-- The deferred callback scheduled by the mismatch branch of
handleQuizClick (app.js lines 1254-1257), firing 2000ms later: remove
the incorrect class and clear the slot content. -/
def slotResetTimeout (targetType : PKind) (app : AppState) : AppState :=
  let slot := slotOf app.quiz targetType
  let slot := { slot with incorrect := false, content := none }
  { app with quiz := setSlot app.quiz targetType slot }

/-- Click listener of an answer card from setupQuizClickSelect (app.js
lines 1171-1192): deselect every card, select the clicked one, record
it as the current answer and show the picked prompt.  A card whose
display is none cannot receive clicks, hence the guard. -/
def clickCard (k : PKind) (app : AppState) : AppState :=
  if (cardOf app.quiz k).displayed = false then app
  else
    let q := app.quiz
    let q := setCard q .proton { cardOf q .proton with selected := false }
    let q := setCard q .neutron { cardOf q .neutron with selected := false }
    let q := setCard q .electron { cardOf q .electron with selected := false }
    let q := setCard q k { cardOf q k with selected := true }
    let q := { q with selectedAnswer := some k, selectedCard := some k,
                      status := some (.pickedPrompt k) }
    { app with quiz := q }

/-- Click listener of a drop slot from setupQuizClickSelect (app.js
lines 1195-1209): with nothing selected only prompt the user, otherwise
run handleQuizClick on the selected answer and the slot's target. -/
def clickSlot (t : PKind) (app : AppState) : AppState :=
  match app.quiz.selectedAnswer, app.quiz.selectedCard with
  | some ans, some _ => handleQuizClick ans t app
  | _, _ =>
      { app with quiz := { app.quiz with status := some .chooseFirst } }

/-- WebARAtomApp.setupQuizClickSelect state effect (app.js lines
1163-1222): it nulls selectedAnswer and selectedCard and re-attaches
the card/slot listeners; it touches neither the slot classes nor the
card display states. -/
def setupQuizClickSelect (app : AppState) : AppState :=
  { app with quiz := { app.quiz with selectedAnswer := none, selectedCard := none } }

/-- Scene effects of the switch statement in gotoScene (app.js lines
914-968), applied after the common resets; the scene index is already
set and is not modified here. -/
def sceneEffects (clamped : ℤ) (app : AppState) : AppState :=
  if clamped = 0 then
    let app := { app with panelHidden := false, panelContent := .introTap }
    -- setupAtomInteraction: guard !this.atom || this.sceneIndex !== 0
    match app.atom with
    | some _ => { app with atomClickAttached := true }
    | none => app
  else if clamped = 1 then
    let app := { app with panelHidden := false, panelContent := .protonInfo }
    onAtom (fun a => animateProtons false (highlightKind .proton a)) app
  else if clamped = 2 then
    let app := { app with panelHidden := false, panelContent := .neutronInfo }
    onAtom (fun a => animateNeutrons false (highlightKind .neutron a)) app
  else if clamped = 3 then
    let app := { app with panelHidden := false, panelContent := .electronInfo }
    onAtom (highlightKind .electron) app
  else if clamped = 4 then
    let app := { app with panelHidden := true, challengeHidden := false }
    setupQuizClickSelect app
  else if clamped = 5 then
    { app with panelHidden := false, panelContent := .summaryInfo }
  else app

/-- WebARAtomApp.gotoScene (app.js lines 891-969): ignored entirely
before placement; otherwise clamp the index to the range 0..5, store
it, update the indicator, hide the quiz overlay, and (when the panel
element exists) clear highlights, restore opacity, stop the nucleon
emphasis animations, detach the scene-0 click handler and apply the
entering scene's effects.  The source's call to
interactionManager.setCurrentScene is skipped behind an existence check
and InteractionManager defines no such method, so it has no effect. -/
def gotoScene (index : ℤ) (app : AppState) : AppState :=
  if app.atomPlaced = false then app
  else
    let clamped := max 0 (min 5 index)
    let app := { app with sceneIndex := clamped, sceneIndicator := clamped + 1,
                          challengeHidden := true }
    if app.panelExists = false then app
    else
      let app := onAtom clearHighlights app
      let app := onAtom restoreOpacity app
      let app := onAtom stopProtonAnimation app
      let app := onAtom stopNeutronAnimation app
      let app := { app with atomClickAttached := false }
      sceneEffects clamped app

/-- WebARAtomApp.placeAtom (app.js lines 650-690): create a fresh
AtomModel, position its group at the reticle pose, write the group
scale to 0.5 directly through scale.setScalar (setScale is not called,
so baseScale keeps its constructor value 1), hide the reticle, mark the
atom placed, reveal the intro panel and footer, stop hit testing, then
navigate to scene 0. -/
def placeAtom (rx ry rz : ℚ) (app : AppState) : AppState :=
  let a := initAtomModel
  let a := setPosition rx ry rz a
  let a := { a with groupScale := 1/2 }
  let app := { app with atom := some a, reticleVisible := false,
                        atomPlaced := true,
                        panelHidden := false, panelContent := .introPlain,
                        hitTestSourceActive := false,
                        hitTestSourceRequested := false,
                        footerHidden := false }
  gotoScene 0 app

/-- An application state ready for placement: the constructor state
after hit testing has made the reticle visible. -/
def readyApp : AppState :=
  { initApp with reticleVisible := true }

/-- The clamp applied to every new scale in interactions.js, written
Math.max(0.1, Math.min(5, v)) at its three use sites (onPointerMove,
update and scaleAtom). -/
def clampScale (v : ℚ) : ℚ :=
  max (1/10) (min 5 v)

/-- The tap test of onPointerUp (interactions.js line 226):
dt < 250 && moved < 8, where moved = Math.hypot dx dy; the displacement
comparison is embedded in the equivalent squared form
dx^2 + dy^2 < 8^2. -/
def isTapGesture (dt dx dy : ℚ) : Bool :=
  decide (dt < 250) && decide (dx ^ 2 + dy ^ 2 < 64)

/-- State of InteractionManager (interactions.js): the active-pointer
map as an insertion-ordered association list, the touch-gesture flags
and gesture-start snapshots, the tap bookkeeping, and the
two-controller squeeze-scaling state.  The tapHandled flag instruments
whether the handleTap call of onPointerUp was reached. -/
structure IMState where
  atom : Option AtomState
  activePointers : List (ℕ × ℚ × ℚ)
  isTouchRotating : Bool
  isTouchGrabbing : Bool
  hasTouchTarget : Bool
  initialTouchX : ℚ
  initialRotationY : ℚ
  initialTouchDistance : ℚ
  initialTouchAngle : ℚ
  initialScale : ℚ
  tapStart : Option (ℚ × ℚ × ℚ)
  tapHandled : Bool
  isGrabbing : Bool
  initialControllerPos : ℚ × ℚ × ℚ
  initialAtomPos : ℚ × ℚ × ℚ
  touchTargetPos : ℚ × ℚ × ℚ
  isScaling : Bool
  scalingControllers : List ℕ
  initialDistance : ℚ
deriving DecidableEq, Repr

/-- InteractionManager constructor state for the touch and squeeze
fields modelled here. -/
def initIM (atom : Option AtomState) : IMState :=
  { atom := atom, activePointers := [], isTouchRotating := false,
    isTouchGrabbing := false, hasTouchTarget := false,
    initialTouchX := 0, initialRotationY := 0, initialTouchDistance := 0,
    initialTouchAngle := 0, initialScale := 1, tapStart := none,
    tapHandled := false, isGrabbing := false,
    initialControllerPos := (0, 0, 0), initialAtomPos := (0, 0, 0),
    touchTargetPos := (0, 0, 0), isScaling := false,
    scalingControllers := [], initialDistance := 0 }

/-- Map.set on activePointers: overwrite in place when the pointer id
exists, append otherwise (JS Map preserves insertion order). -/
def setPtr (l : List (ℕ × ℚ × ℚ)) (pid : ℕ) (x y : ℚ) : List (ℕ × ℚ × ℚ) :=
  if l.any (fun p => p.1 = pid) then
    l.map (fun p => if p.1 = pid then (pid, x, y) else p)
  else l ++ [(pid, x, y)]

/-- Map.delete on activePointers. -/
def delPtr (l : List (ℕ × ℚ × ℚ)) (pid : ℕ) : List (ℕ × ℚ × ℚ) :=
  l.filter (fun p => p.1 ≠ pid)

def hasPtr (l : List (ℕ × ℚ × ℚ)) (pid : ℕ) : Bool :=
  l.any (fun p => p.1 = pid)

/-- InteractionManager.onPointerDown (interactions.js lines 134-165).
onAtomHit stands for the isTouchOnAtom raycast outcome; dist and angle
stand for the distance2/angle2 measurements of the two stored pointers
taken when the second pointer registers. -/
def onPointerDownT (pid : ℕ) (x y : ℚ) (onAtomHit : Bool) (now : ℚ)
    (dist angle : ℚ) (s : IMState) : IMState :=
  match s.atom with
  | none => s
  | some a =>
    let ap := setPtr s.activePointers pid x y
    let s := { s with activePointers := ap }
    let s := if ap.length = 1 then { s with tapStart := some (now, x, y) } else s
    if ap.length = 1 then
      if onAtomHit then
        { s with isTouchRotating := true, initialTouchX := x,
                 initialRotationY := getRotationY a, isTouchGrabbing := false }
      else s
    else if ap.length = 2 then
      { s with initialTouchDistance := dist, initialTouchAngle := angle,
               initialScale := getScale a, initialRotationY := getRotationY a,
               isTouchGrabbing := false, isTouchRotating := false }
    else s

/-- InteractionManager.onPointerMove (interactions.js lines 167-204).
dist and angle stand for the distance2/angle2 measurements of the two
stored pointers in the two-pointer branch. -/
def onPointerMoveT (pid : ℕ) (x y : ℚ) (dist angle : ℚ) (s : IMState) : IMState :=
  match s.atom with
  | none => s
  | some a =>
    if hasPtr s.activePointers pid = false then s
    else
      let ap := setPtr s.activePointers pid x y
      let s := { s with activePointers := ap }
      if ap.length = 1 ∧ s.isTouchRotating then
        let x0 := ((ap.getD 0 (pid, x, y)).2).1
        let newY := s.initialRotationY + (x0 - s.initialTouchX) * (1/100)
        { s with atom := some (setRotationY newY a) }
      else if ap.length = 2 then
        let a :=
          if s.initialTouchDistance > 0 then
            setScale (clampScale (s.initialScale * (dist / s.initialTouchDistance))) a
          else a
        let newY := s.initialRotationY + (angle - s.initialTouchAngle)
        { s with atom := some (setRotationY newY a) }
      else s

/-- First statement block of onPointerUp (interactions.js lines
207-210): remove the lifted pointer from the map. -/
def upRemovePointer (pid : ℕ) (s : IMState) : IMState :=
  if hasPtr s.activePointers pid then
    { s with activePointers := delPtr s.activePointers pid }
  else s

/-- Second statement block of onPointerUp (lines 212-214): below two
active pointers the pinch baseline distance is reset. -/
def upResetDistance (s : IMState) : IMState :=
  if s.activePointers.length < 2 then { s with initialTouchDistance := 0 } else s

/-- Last statement block of onPointerUp (lines 215-232): with no
active pointer left, clear the gesture flags and run the tap
classification on the recorded tap start. -/
def upFinishGesture (x y now : ℚ) (s : IMState) : IMState :=
  if s.activePointers.length = 0 then
    let s := { s with isTouchGrabbing := false, hasTouchTarget := false,
                      isTouchRotating := false }
    match s.tapStart with
    | some (t0, x0, y0) =>
        let s :=
          if isTapGesture (now - t0) (x - x0) (y - y0) then
            { s with tapHandled := true }
          else s
        { s with tapStart := none }
    | none => s
  else s

/-- InteractionManager.onPointerUp (interactions.js lines 206-233),
also bound to pointercancel/pointerout/pointerleave.  It has no atom
guard. -/
def onPointerUpT (pid : ℕ) (x y now : ℚ) (s : IMState) : IMState :=
  upFinishGesture x y now (upResetDistance (upRemovePointer pid s))

/-- InteractionManager.onControllerSqueezeStart (interactions.js lines
306-321): record the squeezing controller; when two squeeze, start
scaling from the current inter-controller distance (supplied as the
measurement dist) and the current scale. -/
def onSqueezeStartT (cid : ℕ) (dist : ℚ) (s : IMState) : IMState :=
  match s.atom with
  | none => s
  | some a =>
    let s := { s with scalingControllers := s.scalingControllers ++ [cid] }
    if s.scalingControllers.length = 2 then
      { s with isScaling := true, initialDistance := dist,
               initialScale := getScale a }
    else s

/-- InteractionManager.onControllerSqueezeEnd (interactions.js lines
323-336). -/
def onSqueezeEndT (cid : ℕ) (s : IMState) : IMState :=
  let s := { s with scalingControllers := s.scalingControllers.eraseP (fun c => c = cid) }
  if s.scalingControllers.length < 2 then { s with isScaling := false } else s

/-- InteractionManager.update (interactions.js lines 339-372), the
per-frame application of pending gestures.  ctrlPos stands for the
current grab controller position and dist for the current
inter-controller distance of the scaling branch.  The grab branch sets
the position to initialAtomPosition plus the controller delta; the
touch-drag branch lerps the group position towards touchTargetPos with
factor 0.2 (dragLerpFactor). -/
def updateT (ctrlPos : ℚ × ℚ × ℚ) (dist : ℚ) (s : IMState) : IMState :=
  match s.atom with
  | none => s
  | some a =>
    let a :=
      if s.isGrabbing then
        setPosition (s.initialAtomPos.1 + (ctrlPos.1 - s.initialControllerPos.1))
          (s.initialAtomPos.2.1 + (ctrlPos.2.1 - s.initialControllerPos.2.1))
          (s.initialAtomPos.2.2 + (ctrlPos.2.2 - s.initialControllerPos.2.2)) a
      else a
    let a :=
      if s.isTouchGrabbing ∧ s.isTouchRotating = false ∧ s.hasTouchTarget then
        setPosition (a.posX + (s.touchTargetPos.1 - a.posX) * (1/5))
          (a.posY + (s.touchTargetPos.2.1 - a.posY) * (1/5))
          (a.posZ + (s.touchTargetPos.2.2 - a.posZ) * (1/5)) a
      else a
    let a :=
      if s.isScaling ∧ s.scalingControllers.length = 2 then
        setScale (clampScale (s.initialScale * (dist / s.initialDistance))) a
      else a
    { s with atom := some a }

/-- Pointer events delivered to the InteractionManager, with the
geometric measurements of each event supplied as inputs. -/
inductive PEvent where
  | down (pid : ℕ) (x y : ℚ) (onAtomHit : Bool) (now : ℚ) (dist angle : ℚ)
  | move (pid : ℕ) (x y : ℚ) (dist angle : ℚ)
  | up (pid : ℕ) (x y now : ℚ)
deriving DecidableEq, Repr

def stepEvent (e : PEvent) (s : IMState) : IMState :=
  match e with
  | .down pid x y onAtomHit now dist angle => onPointerDownT pid x y onAtomHit now dist angle s
  | .move pid x y dist angle => onPointerMoveT pid x y dist angle s
  | .up pid x y now => onPointerUpT pid x y now s

def stepEvents (es : List PEvent) (s : IMState) : IMState :=
  es.foldl (fun s e => stepEvent e s) s

/-- Whether an event is a pointerdown. -/
def isDownEvent : PEvent → Bool
  | .down _ _ _ _ _ _ _ => true
  | _ => false

/-- The restorable appearance of a material: the opacity, color and
transparency flag that restoreOpacity brings back. -/
def matTriple (m : MatState) : ℚ × ℕ × Bool :=
  (m.opacity, m.color, m.transparent)

/-! Helper lemmas shared by the claim theorems. -/

theorem onAtom_quiz (f : AtomState → AtomState) (app : AppState) :
    (onAtom f app).quiz = app.quiz := by
  cases h : app.atom <;> simp [onAtom, h]

theorem onAtom_sceneIndex (f : AtomState → AtomState) (app : AppState) :
    (onAtom f app).sceneIndex = app.sceneIndex := by
  cases h : app.atom <;> simp [onAtom, h]

theorem setupQuizClickSelect_slots (app : AppState) :
    (setupQuizClickSelect app).quiz.slotP = app.quiz.slotP
      ∧ (setupQuizClickSelect app).quiz.slotN = app.quiz.slotN
      ∧ (setupQuizClickSelect app).quiz.slotE = app.quiz.slotE
      ∧ (setupQuizClickSelect app).quiz.cardP = app.quiz.cardP
      ∧ (setupQuizClickSelect app).quiz.cardN = app.quiz.cardN
      ∧ (setupQuizClickSelect app).quiz.cardE = app.quiz.cardE := by
  simp [setupQuizClickSelect]

theorem sceneEffects_sceneIndex (c : ℤ) (app : AppState) :
    (sceneEffects c app).sceneIndex = app.sceneIndex := by
  unfold sceneEffects
  split_ifs <;>
    cases h : app.atom <;>
      simp [h, onAtom, setupQuizClickSelect]

theorem gotoScene_of_not_placed (i : ℤ) (app : AppState)
    (h : app.atomPlaced = false) : gotoScene i app = app := by
  simp [gotoScene, h]

theorem gotoScene_sceneIndex (i : ℤ) (app : AppState)
    (h : app.atomPlaced = true) :
    (gotoScene i app).sceneIndex = max 0 (min 5 i) := by
  unfold gotoScene
  rw [h, if_neg (by simp)]
  dsimp only
  split_ifs with hp <;>
    simp [sceneEffects_sceneIndex, onAtom_sceneIndex]

/-- C6: before the atom has been placed, gotoScene returns the state
unchanged for every target index: the scene index, the panel and the
overlay are all untouched (app.js line 892). -/
theorem gotoScene_noop_before_placement :
    ∀ (i : ℤ) (app : AppState), app.atomPlaced = false →
      gotoScene i app = app := by
  intro i app h
  exact gotoScene_of_not_placed i app h

/-- Witness for gotoScene_noop_before_placement at the constructor
state and target scene 3. -/
theorem gotoScene_noop_before_placement_witness :
    gotoScene 3 initApp = initApp :=
  gotoScene_noop_before_placement 3 initApp rfl

/-- C10: getScale returns exactly the argument of the latest setScale
call (atom.js lines 544-551), its constructor value is 1, and placeAtom
writes the group scale to 0.5 through scale.setScalar without calling
setScale, so right after placement getScale still returns 1 while the
aggregate group scale is 0.5 (app.js lines 650-690). -/
theorem setScale_getScale_placement :
    (∀ (a : AtomState) (s : ℚ),
        getScale (setScale s a) = s ∧ (setScale s a).groupScale = s)
      ∧ getScale initAtomModel = 1
      ∧ (placeAtom 0 0 0 readyApp).atom.map getScale = some 1
      ∧ (placeAtom 0 0 0 readyApp).atom.map AtomState.groupScale = some (1/2) := by
  refine ⟨fun a s => ⟨rfl, rfl⟩, rfl, ?_, ?_⟩ <;> decide

/-- C8: the tap classifier of onPointerUp (interactions.js line 226)
accepts exactly the pairs with duration under 250ms and displacement
under 8px: duration 249ms with displacement 7px is a tap, duration
251ms or displacement 9px is not; and processing a pointerup on the
last active pointer invokes handleTap exactly when the classifier
accepts the recorded tap start. -/
theorem tap_classification :
    (∀ dt dx dy : ℚ,
        isTapGesture dt dx dy = true ↔ (dt < 250 ∧ dx ^ 2 + dy ^ 2 < 8 ^ 2))
      ∧ isTapGesture 249 7 0 = true
      ∧ isTapGesture 251 7 0 = false
      ∧ isTapGesture 249 9 0 = false
      ∧ (∀ (s : IMState) (pid : ℕ) (px py x y now t0 x0 y0 : ℚ),
          s.activePointers = [(pid, px, py)] →
          s.tapStart = some (t0, x0, y0) →
          s.tapHandled = false →
          (onPointerUpT pid x y now s).tapHandled
            = isTapGesture (now - t0) (x - x0) (y - y0)) := by
  refine ⟨?_, by decide, by decide, by decide, ?_⟩
  · intro dt dx dy
    simp [isTapGesture]
    norm_num
  · intro s pid px py x y now t0 x0 y0 hap hts hth
    unfold onPointerUpT upRemovePointer upResetDistance upFinishGesture
    simp [hasPtr, hap, delPtr, hts]
    by_cases h : isTapGesture (now - t0) (x - x0) (y - y0) = true
    · simp [h]
    · simp only [Bool.not_eq_true] at h
      simp [h, hth]

/-- Witness for tap_classification: the machine-level conjunct applied
to the state after a single pointer down at (10, 10) at time 1000, with
a pointerup at (17, 10) at time 1249. -/
theorem tap_classification_witness :
    (onPointerUpT 0 17 10 1249
        (onPointerDownT 0 10 10 false 1000 0 0 (initIM (some initAtomModel)))).tapHandled
      = isTapGesture (1249 - 1000) (17 - 10) (10 - 10) :=
  tap_classification.2.2.2.2
    (onPointerDownT 0 10 10 false 1000 0 0 (initIM (some initAtomModel)))
    0 10 10 17 10 1249 1000 10 10 (by decide) (by decide) (by decide)

/-- C4: for every kind, highlightKind followed by clearHighlights
restores the opacity, color and transparency flag of every material of
the freshly created atom model to its pre-highlight snapshot;
clearHighlights is idempotent; and clearHighlights on an unfaded model
is the identity (atom.js lines 289-383 and 733-775). -/
theorem highlight_clear_roundtrip :
    (∀ k : PKind,
        (clearHighlights (highlightKind k initAtomModel)).mats.map matTriple
          = initAtomModel.mats.map matTriple)
      ∧ (∀ a : AtomState, clearHighlights (clearHighlights a) = clearHighlights a)
      ∧ (∀ a : AtomState, a.isFaded = false → clearHighlights a = a) := by
  refine ⟨?_, ?_, ?_⟩
  · intro k
    cases k <;> decide
  · intro a
    unfold clearHighlights restoreOpacity
    by_cases h : a.isFaded = false <;> simp [h]
  · intro a h
    simp [clearHighlights, restoreOpacity, h]

/-- Witness for highlight_clear_roundtrip: the no-op conjunct applied
to the freshly created atom model, which is not faded. -/
theorem highlight_clear_roundtrip_witness :
    clearHighlights initAtomModel = initAtomModel :=
  highlight_clear_roundtrip.2.2 initAtomModel rfl

/-- C7: after placement the scene index stored by gotoScene is always
an integer in the range 0..5, the range is preserved by every
navigation, requesting the previous scene from scene 0 leaves the
index at 0, and requesting the next scene from scene 5 leaves it at 5
(app.js lines 891-894 and 637-642). -/
theorem gotoScene_clamped_in_range :
    (∀ (i : ℤ) (app : AppState), app.atomPlaced = true →
        0 ≤ (gotoScene i app).sceneIndex ∧ (gotoScene i app).sceneIndex ≤ 5)
      ∧ (∀ (i : ℤ) (app : AppState),
          0 ≤ app.sceneIndex → app.sceneIndex ≤ 5 →
          0 ≤ (gotoScene i app).sceneIndex ∧ (gotoScene i app).sceneIndex ≤ 5)
      ∧ (∀ app : AppState, app.atomPlaced = true → app.sceneIndex = 0 →
          (gotoScene (app.sceneIndex - 1) app).sceneIndex = 0)
      ∧ (∀ app : AppState, app.atomPlaced = true → app.sceneIndex = 5 →
          (gotoScene (app.sceneIndex + 1) app).sceneIndex = 5)
      ∧ initApp.sceneIndex = 0 := by
  refine ⟨?_, ?_, ?_, ?_, rfl⟩
  · intro i app h
    rw [gotoScene_sceneIndex i app h]
    omega
  · intro i app h0 h5
    cases h : app.atomPlaced
    · rw [gotoScene_of_not_placed i app h]
      exact ⟨h0, h5⟩
    · rw [gotoScene_sceneIndex i app h]
      omega
  · intro app h h0
    rw [gotoScene_sceneIndex _ app h, h0]
    omega
  · intro app h h5
    rw [gotoScene_sceneIndex _ app h, h5]
    omega

/-- Witness for gotoScene_clamped_in_range: navigating to the previous
scene from scene 0 right after placement stays at scene 0. -/
theorem gotoScene_clamped_in_range_witness :
    (gotoScene ((placeAtom 0 0 0 readyApp).sceneIndex - 1)
        (placeAtom 0 0 0 readyApp)).sceneIndex = 0 :=
  gotoScene_clamped_in_range.2.2.1 (placeAtom 0 0 0 readyApp)
    (by decide) (by decide)

/-- C1 (evaluation at the failing input): with the atom placed and the
sequencer at scene 0, gotoScene 1 makes the proton material fully
opaque in the bright proton color and dims every neutron, electron,
orbit and trail material to opacity 0.1; however the nucleus
container's glow meshes are NOT made invisible — they too are merely
dimmed to opacity 0.1 and their visible flags stay true, because the
special case in highlightKind compares the traversed Object3D against
the JS Array this.nucleus (atom.js line 319), a comparison that can
never succeed, as the first conjunct records. -/
theorem scene1_highlight_eval :
    (∀ o : SceneObj, nodeIsNucleusArray o = false)
      ∧ (let app := gotoScene 1 (placeAtom 0 0 0 readyApp)
         let a := app.atom.getD initAtomModel
         app.sceneIndex = 1
           ∧ (matAt a 0).opacity = 1
           ∧ (matAt a 0).transparent = false
           ∧ (matAt a 0).color = 0xff0000
           ∧ (matAt a 1).opacity = 1/10
           ∧ (matAt a 2).opacity = 1/10
           ∧ (matAt a 9).opacity = 1/10
           ∧ (matAt a 3).opacity = 1/10
           ∧ (matAt a 3).visible = true
           ∧ (matAt a 4).opacity = 1/10
           ∧ (matAt a 4).visible = true
           ∧ (objAt a 15).visible = true
           ∧ (objAt a 16).visible = true) :=
  ⟨fun _ => rfl, by decide⟩

theorem slotOf_setSlot_same (q : QuizState) (t : PKind) (s : SlotState) :
    slotOf (setSlot q t s) t = s := by
  cases t <;> rfl

theorem slotOf_setCard (q : QuizState) (k t : PKind) (c : CardState) :
    slotOf (setCard q k c) t = slotOf q t := by
  cases k <;> cases t <;> rfl

theorem slotOf_checkQuizCompletion (app : AppState) (t : PKind) :
    slotOf (checkQuizCompletion app).quiz t = slotOf app.quiz t := by
  unfold checkQuizCompletion
  dsimp only
  split_ifs <;> cases t <;> rfl

theorem checkQuizCompletion_slotP (app : AppState) :
    (checkQuizCompletion app).quiz.slotP = app.quiz.slotP :=
  slotOf_checkQuizCompletion app .proton

theorem checkQuizCompletion_slotN (app : AppState) :
    (checkQuizCompletion app).quiz.slotN = app.quiz.slotN :=
  slotOf_checkQuizCompletion app .neutron

theorem checkQuizCompletion_slotE (app : AppState) :
    (checkQuizCompletion app).quiz.slotE = app.quiz.slotE :=
  slotOf_checkQuizCompletion app .electron

/-- C2 counterexample: a slot in the correct state leaves it without
any reset.  After the proton token is placed correctly in the proton
slot, selecting the neutron token and clicking the proton slot removes
the slot's correct state (handleQuizClick's mismatch branch executes
slot.classList.remove, app.js line 1250). -/
theorem quiz_correct_slot_lost_counterexample :
    (let app0 := gotoScene 4 (placeAtom 0 0 0 readyApp)
     let app1 := clickSlot .proton (clickCard .proton app0)
     let app2 := clickSlot .proton (clickCard .neutron app1)
     app0.sceneIndex = 4
       ∧ app1.quiz.slotP.correct = true
       ∧ app2.quiz.slotP.correct = false
       ∧ app2.quiz.slotP.incorrect = true) := by
  decide

/-- C2 (amended): in the quiz scene with a token selected, clicking a
slot whose target matches the selection marks the slot correct, while
clicking a slot whose target differs never marks it correct — the slot
flashes incorrect (clearing any previous correct state) and the 2s
timeout returns it to empty (app.js lines 1224-1259). -/
theorem quiz_slot_transitions :
    ∀ (app : AppState) (k t : PKind),
      app.sceneIndex = 4 →
      app.quiz.selectedAnswer = some k →
      app.quiz.selectedCard = some k →
      ((k = t → (slotOf (clickSlot t app).quiz t).correct = true)
        ∧ (k ≠ t →
            (slotOf (clickSlot t app).quiz t).correct = false
              ∧ (slotOf (clickSlot t app).quiz t).incorrect = true
              ∧ (slotOf (slotResetTimeout t (clickSlot t app)).quiz t).correct = false
              ∧ (slotOf (slotResetTimeout t (clickSlot t app)).quiz t).incorrect = false
              ∧ (slotOf (slotResetTimeout t (clickSlot t app)).quiz t).content = none)) := by
  intro app k t h4 hA hC
  refine ⟨?_, ?_⟩
  · intro hkt
    subst hkt
    cases k <;>
      simp [clickSlot, hA, hC, handleQuizClick, h4, checkQuizCompletion_slotP,
        checkQuizCompletion_slotN, checkQuizCompletion_slotE,
        setSlot, setCard, slotOf, cardOf]
  · intro hkt
    cases k <;> cases t <;>
      first
        | exact absurd rfl hkt
        | simp [clickSlot, hA, hC, handleQuizClick, h4, slotResetTimeout,
            setSlot, setCard, slotOf, cardOf]

/-- Witness for quiz_slot_transitions: in the quiz scene with the
proton token selected, clicking the proton slot marks it correct. -/
theorem quiz_slot_transitions_witness :
    (slotOf (clickSlot .proton
        (clickCard .proton (gotoScene 4 (placeAtom 0 0 0 readyApp)))).quiz
      .proton).correct = true :=
  (quiz_slot_transitions
      (clickCard .proton (gotoScene 4 (placeAtom 0 0 0 readyApp)))
      .proton .proton (by decide) (by decide) (by decide)).1 rfl

/-- C3 counterexample: re-entering the quiz scene does not reset the
quiz.  After a correct proton placement, leaving to scene 5 and
re-entering scene 4 leaves the proton slot marked correct and the
proton token still removed from the pool. -/
theorem quiz_reentry_counterexample :
    (let app1 := clickSlot .proton
        (clickCard .proton (gotoScene 4 (placeAtom 0 0 0 readyApp)))
     let app2 := gotoScene 4 (gotoScene 5 app1)
     app2.sceneIndex = 4
       ∧ app2.quiz.slotP.correct = true
       ∧ app2.quiz.cardP.displayed = false) := by
  decide

/-- C3 (amended): entering the quiz scene shows the overlay, hides the
lesson panel and clears the current token selection, but it resets
nothing else of the quiz: all slot states and all card display states
are carried over unchanged (setupQuizClickSelect only nulls
selectedAnswer and selectedCard, app.js lines 1163-1222). -/
theorem quiz_scene_entry_resets_selection_only :
    ∀ app : AppState, app.atomPlaced = true → app.panelExists = true →
      (let app4 := gotoScene 4 app
       app4.sceneIndex = 4
         ∧ app4.challengeHidden = false
         ∧ app4.panelHidden = true
         ∧ app4.quiz.selectedAnswer = none
         ∧ app4.quiz.selectedCard = none
         ∧ app4.quiz.slotP = app.quiz.slotP
         ∧ app4.quiz.slotN = app.quiz.slotN
         ∧ app4.quiz.slotE = app.quiz.slotE
         ∧ app4.quiz.cardP = app.quiz.cardP
         ∧ app4.quiz.cardN = app.quiz.cardN
         ∧ app4.quiz.cardE = app.quiz.cardE) := by
  intro app hP hE
  unfold gotoScene
  rw [hP, if_neg (by simp)]
  dsimp only
  rw [if_neg (by simp [hE])]
  unfold sceneEffects
  norm_num
  unfold setupQuizClickSelect
  simp [onAtom_quiz, onAtom_sceneIndex]

/-- Witness for quiz_scene_entry_resets_selection_only at the state
with a correctly filled proton slot. -/
theorem quiz_scene_entry_resets_selection_only_witness :
    (let app := clickSlot .proton
        (clickCard .proton (gotoScene 4 (placeAtom 0 0 0 readyApp)))
     let app4 := gotoScene 4 app
     app4.sceneIndex = 4
       ∧ app4.challengeHidden = false
       ∧ app4.panelHidden = true
       ∧ app4.quiz.selectedAnswer = none
       ∧ app4.quiz.selectedCard = none
       ∧ app4.quiz.slotP = app.quiz.slotP
       ∧ app4.quiz.slotN = app.quiz.slotN
       ∧ app4.quiz.slotE = app.quiz.slotE
       ∧ app4.quiz.cardP = app.quiz.cardP
       ∧ app4.quiz.cardN = app.quiz.cardN
       ∧ app4.quiz.cardE = app.quiz.cardE) :=
  quiz_scene_entry_resets_selection_only
    (clickSlot .proton (clickCard .proton (gotoScene 4 (placeAtom 0 0 0 readyApp))))
    (by decide) (by decide)

/-- C5: for both scale gestures — the two-pointer pinch of
onPointerMove (interactions.js lines 184-203) and the two-controller
squeeze applied by update (lines 363-371) — the resulting scale is
clamp(initialScale * ratio, 0.1, 5.0) for ratio = current/initial
distance; the clamped value always lies in [0.1, 5], it saturates at
both boundaries, and it is monotone non-decreasing in the ratio. -/
theorem pinch_and_squeeze_scale :
    (∀ (s : IMState) (a : AtomState) (pid : ℕ) (x y dist angle : ℚ),
        s.atom = some a →
        hasPtr s.activePointers pid = true →
        (setPtr s.activePointers pid x y).length = 2 →
        0 < s.initialTouchDistance →
        (onPointerMoveT pid x y dist angle s).atom.map getScale
          = some (clampScale (s.initialScale * (dist / s.initialTouchDistance))))
      ∧ (∀ (s : IMState) (a : AtomState) (cp : ℚ × ℚ × ℚ) (dist : ℚ),
          s.atom = some a →
          s.isScaling = true →
          s.scalingControllers.length = 2 →
          (updateT cp dist s).atom.map getScale
            = some (clampScale (s.initialScale * (dist / s.initialDistance))))
      ∧ (∀ v : ℚ, 1/10 ≤ clampScale v ∧ clampScale v ≤ 5)
      ∧ (∀ s0 r : ℚ, s0 * r ≤ 1/10 → clampScale (s0 * r) = 1/10)
      ∧ (∀ s0 r : ℚ, 5 ≤ s0 * r → clampScale (s0 * r) = 5)
      ∧ (∀ s0 r1 r2 : ℚ, 0 ≤ s0 → r1 ≤ r2 →
          clampScale (s0 * r1) ≤ clampScale (s0 * r2)) := by
  refine ⟨?_, ?_, ?_, ?_, ?_, ?_⟩
  · intro s a pid x y dist angle h h2 h3 h4
    simp [onPointerMoveT, h, h2, h3, h4, setScale, setRotationY, getScale]
  · intro s a cp dist h h2 h3
    simp only [updateT, h, h2, h3]
    split_ifs <;> simp_all [setScale, setPosition, getScale]
  · intro v
    exact ⟨le_max_left _ _, max_le (by norm_num) (min_le_left _ _)⟩
  · intro s0 r hle
    unfold clampScale
    rw [min_eq_right (le_trans hle (by norm_num)), max_eq_left hle]
  · intro s0 r h5
    unfold clampScale
    rw [min_eq_left h5, max_eq_right (by norm_num)]
  · intro s0 r1 r2 hs hr
    unfold clampScale
    exact max_le_max (le_refl _)
      (min_le_min (le_refl _) (mul_le_mul_of_nonneg_left hr hs))

/-- Witness for pinch_and_squeeze_scale: a pinch that doubles the
inter-pointer distance (100 to 200) from initial scale 1 gives
clamp(1 * 2) of the pinch formula. -/
theorem pinch_and_squeeze_scale_witness :
    (onPointerMoveT 1 200 0 200 0
        (onPointerDownT 1 100 0 false 0 100 0
          (onPointerDownT 0 0 0 false 0 0 0
            (initIM (some initAtomModel))))).atom.map getScale
      = some (clampScale
          ((onPointerDownT 1 100 0 false 0 100 0
              (onPointerDownT 0 0 0 false 0 0 0
                (initIM (some initAtomModel)))).initialScale
            * (200 / (onPointerDownT 1 100 0 false 0 100 0
                (onPointerDownT 0 0 0 false 0 0 0
                  (initIM (some initAtomModel)))).initialTouchDistance))) :=
  pinch_and_squeeze_scale.1
    (onPointerDownT 1 100 0 false 0 100 0
      (onPointerDownT 0 0 0 false 0 0 0 (initIM (some initAtomModel))))
    initAtomModel 1 200 0 200 0 (by decide) (by decide) (by decide) (by decide)

theorem stepEvent_preserves_no_rotation (e : PEvent) (s : IMState)
    (hd : isDownEvent e = false) (hr : s.isTouchRotating = false) :
    (stepEvent e s).isTouchRotating = false := by
  cases e with
  | down pid x y hit now dist angle => simp [isDownEvent] at hd
  | move pid x y dist angle =>
    cases h : s.atom with
    | none => simp [stepEvent, onPointerMoveT, h, hr]
    | some a =>
      simp only [stepEvent, onPointerMoveT, h]
      split_ifs <;> simp [hr]
  | up pid x y now =>
    have h1 : (upRemovePointer pid s).isTouchRotating = false := by
      unfold upRemovePointer; split_ifs <;> simp [hr]
    have h2 : (upResetDistance (upRemovePointer pid s)).isTouchRotating = false := by
      unfold upResetDistance; split_ifs <;> simp [h1]
    simp only [stepEvent, onPointerUpT]
    unfold upFinishGesture
    split_ifs with h0
    · cases hts : (upResetDistance (upRemovePointer pid s)).tapStart with
      | none => simp [hts]
      | some triple =>
          obtain ⟨t0, x0, y0⟩ := triple
          simp only [hts]
          split_ifs <;> rfl
    · exact h2

theorem stepEvents_preserve_no_rotation (es : List PEvent) :
    ∀ s : IMState, (∀ e ∈ es, isDownEvent e = false) →
      s.isTouchRotating = false → (stepEvents es s).isTouchRotating = false := by
  induction es with
  | nil => intro s _ hr; exact hr
  | cons e es ih =>
    intro s hall hr
    exact ih (stepEvent e s) (fun e' he' => hall e' (List.mem_cons_of_mem e he'))
      (stepEvent_preserves_no_rotation e s (hall e (List.mem_cons_self e es)) hr)

/-- C9: registering a second active pointer always cancels an
in-progress single-pointer rotation — right after a pointerdown that
brings the active-pointer count to two, the rotation flag is false
(interactions.js lines 155-164) — and rotation never resumes without a
new pointerdown: pointermove and pointerup events keep the rotation
flag false, in particular when the count drops from two back to one. -/
theorem second_pointer_cancels_rotation :
    (∀ (s : IMState) (a : AtomState) (pid : ℕ) (x y : ℚ) (hit : Bool)
        (now dist angle : ℚ),
        s.atom = some a →
        (onPointerDownT pid x y hit now dist angle s).activePointers.length = 2 →
        (onPointerDownT pid x y hit now dist angle s).isTouchRotating = false)
      ∧ (∀ (e : PEvent) (s : IMState), isDownEvent e = false →
          s.isTouchRotating = false → (stepEvent e s).isTouchRotating = false)
      ∧ (∀ (es : List PEvent) (s : IMState),
          (∀ e ∈ es, isDownEvent e = false) →
          s.isTouchRotating = false →
          (stepEvents es s).isTouchRotating = false) := by
  refine ⟨?_, stepEvent_preserves_no_rotation,
    fun es s h hr => stepEvents_preserve_no_rotation es s h hr⟩
  intro s a pid x y hit now dist angle h
  simp only [onPointerDownT, h]
  by_cases h1 : (setPtr s.activePointers pid x y).length = 1
  · by_cases hh : hit <;> simp [h1, hh]
  · by_cases h2 : (setPtr s.activePointers pid x y).length = 2 <;> simp [h1, h2]

/-- Witness for second_pointer_cancels_rotation: a second pointerdown
arriving during a one-pointer rotation on the atom leaves the rotation
flag false. -/
theorem second_pointer_cancels_rotation_witness :
    (onPointerDownT 1 50 10 true 0 40 0
        (onPointerDownT 0 10 10 true 0 0 0
          (initIM (some initAtomModel)))).isTouchRotating = false :=
  second_pointer_cancels_rotation.1
    (onPointerDownT 0 10 10 true 0 0 0 (initIM (some initAtomModel)))
    initAtomModel 1 50 10 true 0 40 0 (by decide) (by decide)

end WebarAtom
